import Mathlib

/-!
A shallow embedding of `src/MQPL.py` (project management: task graph with a
critical-path resolver, a strategy-based notification dispatcher, and a
project aggregate).

Modelling conventions:
* Python object identity is modelled by a numeric `id` field on `Tache`;
  predecessor references (`dependances`) are lists of such ids, resolved
  through an explicit heap `env : Nat → Option Tache` standing for the
  Python object graph (which may be cyclic, hence cannot be an inductive
  value directly).
* `datetime` values are modelled at calendar-day granularity as `Int`
  day numbers, so `(fin - debut)` is exactly Python's
  `(date_fin - date_debut).days` for whole-day datetimes.
* `datetime.now()` in `Changement.__init__` is an explicit `now` parameter.
* The unbounded recursion of `find_longest_path` is modelled with fuel:
  `none` means the computation did not complete (fuel ran out, i.e. the
  Python recursion kept going, or a reference failed to resolve), and for
  `calculer_chemin_critique` also the `ValueError` that Python's `max`
  raises on an empty `all_paths` list.
* `print`-based delivery is modelled by returning the list of
  `envoyer_message` invocations `(message, destinataire)`, in order.
-/

namespace MQPL

/-- `class Membre`: a team member with a name and a role. -/
structure Membre where
  nom : String
  role : String
deriving DecidableEq

/-- `class Tache`: a task; `id` models Python object identity and
`dependances` holds the ids of the predecessor task objects. -/
structure Tache where
  id : Nat
  nom : String
  description : String
  date_debut : Int
  date_fin : Int
  responsable : Membre
  statut : String
  dependances : List Nat
deriving DecidableEq

/-- `class Equipe`: the member registry. -/
structure Equipe where
  membres : List Membre
deriving DecidableEq

/-- `Equipe.obtenir_membres`. -/
def Equipe.obtenir_membres (e : Equipe) : List Membre :=
  e.membres

/-- `Equipe.ajouter_membre`. -/
def Equipe.ajouter_membre (e : Equipe) (membre : Membre) : Equipe :=
  { e with membres := e.membres ++ [membre] }

/-- `class Jalon`: a milestone. -/
structure Jalon where
  nom : String
  date : Int
deriving DecidableEq

/-- `class Risque`: a risk (probability is stored, never computed with). -/
structure Risque where
  description : String
  probabilite : ℚ
  impact : String
deriving DecidableEq

/-- `class Changement`: an immutable change record; `date` is the
`datetime.now()` timestamp captured at construction. -/
structure Changement where
  description : String
  version : Nat
  date : Int
deriving DecidableEq

/-- The three concrete `NotificationStrategy` subclasses. -/
inductive NotificationStrategy where
  | email
  | sms
  | push
deriving DecidableEq

/-- `envoyer_message`: the line each strategy prints for a recipient. -/
def NotificationStrategy.envoyer_message :
    NotificationStrategy → String → Membre → String
  | .email, message, d =>
      "Notification envoyée à " ++ d.nom ++ " par email: " ++ message
  | .sms, message, d =>
      "Notification envoyée à " ++ d.nom ++ " par SMS: " ++ message
  | .push, message, d =>
      "Notification envoyée à " ++ d.nom ++ " par Push: " ++ message

/-- `class NotificationContext`: holds the currently bound strategy. -/
structure NotificationContext where
  strategy : NotificationStrategy
deriving DecidableEq

/-- `NotificationContext.notifier`: one `envoyer_message` invocation per
recipient, in list order; each invocation is recorded as the pair
`(message, destinataire)`. -/
def NotificationContext.notifier (_ctx : NotificationContext)
    (message : String) (destinataires : List Membre) :
    List (String × Membre) :=
  destinataires.map (fun destinataire => (message, destinataire))

/-- `class Projet`: the aggregate root. -/
structure Projet where
  nom : String
  description : String
  date_debut : Int
  date_fin : Int
  budget : Int
  taches : List Tache
  equipe : Equipe
  risques : List Risque
  jalons : List Jalon
  version : Nat
  changements : List Changement
  chemin_critique : List Tache
  notification_context : Option NotificationContext
deriving DecidableEq

/-- `Projet.__init__`. -/
def Projet.init (nom description : String) (date_debut date_fin : Int) :
    Projet :=
  { nom := nom
    description := description
    date_debut := date_debut
    date_fin := date_fin
    budget := 0
    taches := []
    equipe := { membres := [] }
    risques := []
    jalons := []
    version := 1
    changements := []
    chemin_critique := []
    notification_context := none }

/-- `Projet.set_notification_strategy`: constructs a fresh
`NotificationContext` around the given strategy. -/
def Projet.set_notification_strategy (p : Projet)
    (strategy : NotificationStrategy) : Projet :=
  { p with notification_context := some { strategy := strategy } }

/-- `Projet.notifier`: forwards to the context when one is bound; before
`set_notification_strategy` is ever called it does nothing. -/
def Projet.notifier (p : Projet) (message : String) :
    List (String × Membre) :=
  match p.notification_context with
  | some ctx => ctx.notifier message p.equipe.membres
  | none => []

/-- `Projet.ajouter_tache`: append, then notify. -/
def Projet.ajouter_tache (p : Projet) (tache : Tache) :
    Projet × List (String × Membre) :=
  let p1 := { p with taches := p.taches ++ [tache] }
  (p1, p1.notifier ("Nouvelle tâche ajoutée: " ++ tache.nom))

/-- `Projet.ajouter_membre_equipe`: append to the registry, then notify. -/
def Projet.ajouter_membre_equipe (p : Projet) (membre : Membre) :
    Projet × List (String × Membre) :=
  let p1 := { p with equipe := p.equipe.ajouter_membre membre }
  (p1, p1.notifier (membre.nom ++ " a été ajouté à l\x27équipe"))

/-- `Projet.definir_budget`: overwrite the budget, then notify. -/
def Projet.definir_budget (p : Projet) (budget : Int) :
    Projet × List (String × Membre) :=
  let p1 := { p with budget := budget }
  (p1, p1.notifier ("Le budget du projet a été défini à "
      ++ toString p1.budget ++ " Unité Monétaire"))

/-- `Projet.ajouter_risque`: append, then notify. -/
def Projet.ajouter_risque (p : Projet) (risque : Risque) :
    Projet × List (String × Membre) :=
  let p1 := { p with risques := p.risques ++ [risque] }
  (p1, p1.notifier ("Nouveau risque ajouté: " ++ risque.description))

/-- `Projet.ajouter_jalon`: append, then notify. -/
def Projet.ajouter_jalon (p : Projet) (jalon : Jalon) :
    Projet × List (String × Membre) :=
  let p1 := { p with jalons := p.jalons ++ [jalon] }
  (p1, p1.notifier ("Nouveau jalon ajouté: " ++ jalon.nom))

/-- `Projet.enregistrer_changement`: stamp a `Changement` with the current
version, append it, increment the version, then notify with the
(post-increment) `self.version`. -/
def Projet.enregistrer_changement (p : Projet) (now : Int)
    (description : String) : Projet × List (String × Membre) :=
  let changement : Changement :=
    { description := description, version := p.version, date := now }
  let p1 := { p with changements := p.changements ++ [changement] }
  let p2 := { p1 with version := p1.version + 1 }
  (p2, p2.notifier ("Changement enregistré: " ++ description
      ++ " (version " ++ toString p2.version ++ ")"))

/-- The memo dictionary of `find_longest_path`, keyed by task identity. -/
abbrev Memo : Type :=
  List (Nat × (Int × List Tache))

/-- `tache in memo` / `memo[tache]` lookup. -/
def lookupMemo : Memo → Nat → Option (Int × List Tache)
  | [], _ => none
  | (k, v) :: rest, id => if k = id then some v else lookupMemo rest id

/-- `memo[tache] = v` for a task not yet present. -/
def insertMemo (memo : Memo) (id : Nat) (v : Int × List Tache) : Memo :=
  (id, v) :: memo

/-- The `for dep in tache.dependances` loop of `find_longest_path`:
threads the memo, resolves each dependency reference through the heap
`env`, recurses via `flp`, and keeps `(max_length, max_path)`, replacing
them only on strict `dep_length > max_length`. -/
def goDeps (env : Nat → Option Tache)
    (flp : Tache → Memo → Option (Memo × (Int × List Tache))) :
    List Nat → Memo → Int × List Tache → Option (Memo × (Int × List Tache))
  | [], memo, acc => some (memo, acc)
  | depId :: rest, memo, acc =>
    match env depId with
    | none => none
    | some dep =>
      match flp dep memo with
      | none => none
      | some (memo1, (dep_length, dep_path)) =>
        if acc.1 < dep_length then
          goDeps env flp rest memo1 (dep_length, dep_path)
        else
          goDeps env flp rest memo1 acc

/-- `find_longest_path(tache, memo)`, fuelled. Returns the updated memo
together with the `(total_length, path)` pair; a task with no
dependencies is memoised as `(0, [tache])`, otherwise the dependency
loop runs from `(0, [])` and the task adds its own span
`date_fin - date_debut` on top of the winning predecessor length. -/
def find_longest_path (env : Nat → Option Tache) :
    Nat → Tache → Memo → Option (Memo × (Int × List Tache))
  | 0, _, _ => none
  | fuel + 1, tache, memo =>
    match lookupMemo memo tache.id with
    | some v => some (memo, v)
    | none =>
      if tache.dependances.isEmpty then
        some (insertMemo memo tache.id (0, [tache]), (0, [tache]))
      else
        match goDeps env (find_longest_path env fuel)
            tache.dependances memo (0, []) with
        | none => none
        | some (memo1, (max_length, max_path)) =>
          let total_length :=
            max_length + (tache.date_fin - tache.date_debut)
          some (insertMemo memo1 tache.id (total_length, max_path ++ [tache]),
            (total_length, max_path ++ [tache]))

/-- The list comprehension
`all_paths = [find_longest_path(tache, memo) for tache in self.taches]`,
threading the single memo dictionary across all top-level tasks. -/
def computeAllPaths (env : Nat → Option Tache) (fuel : Nat) :
    List Tache → Memo → Option (List (Int × List Tache))
  | [], _ => some []
  | tache :: rest, memo =>
    match find_longest_path env fuel tache memo with
    | none => none
    | some (memo1, v) =>
      match computeAllPaths env fuel rest memo1 with
      | none => none
      | some vs => some (v :: vs)

/-- `max(all_paths, key=lambda x: x[0])`: first maximal element wins
(Python's `max` keeps the earliest of equals); `none` on an empty list
models the `ValueError` Python raises there. -/
def maxByFst : List (Int × List Tache) → Option (Int × List Tache)
  | [] => none
  | x :: xs => some (xs.foldl (fun best y => if best.1 < y.1 then y else best) x)

/-- `Projet.calculer_chemin_critique`: computes all paths with a shared
memo and overwrites the cached `chemin_critique` with the winning path;
`none` models an incomplete run (unbounded recursion on cycles) or the
`ValueError` of `max` on an empty task list. -/
def Projet.calculer_chemin_critique (env : Nat → Option Tache) (fuel : Nat)
    (p : Projet) : Option Projet :=
  match computeAllPaths env fuel p.taches [] with
  | none => none
  | some all_paths =>
    match maxByFst all_paths with
    | none => none
    | some best => some { p with chemin_critique := best.2 }

/-- `Projet.generer_rapport`: a read-only projection of the aggregate state
into a report string; modelled state-passing style to make explicit that
the aggregate is left untouched. -/
def Projet.generer_rapport (p : Projet) : Projet × String :=
  let rapport :=
    "Rapport d\x27activités du Projet \x27" ++ p.nom ++ "\x27:\n"
      ++ "Version: " ++ toString p.version ++ "\n"
      ++ "Dates: " ++ toString p.date_debut ++ " à "
      ++ toString p.date_fin ++ "\n"
      ++ "Budget: " ++ toString p.budget ++ " Unité Monétaire\n"
      ++ "Équipe:\n"
      ++ String.join (p.equipe.membres.map (fun membre =>
          "- " ++ membre.nom ++ " (" ++ membre.role ++ ")\n"))
      ++ "Tâches:\n"
      ++ String.join (p.taches.map (fun tache =>
          "- " ++ tache.nom ++ " (" ++ toString tache.date_debut ++ " à "
            ++ toString tache.date_fin ++ "), Responsable: "
            ++ tache.responsable.nom ++ ", Statut: " ++ tache.statut ++ "\n"))
      ++ "Jalons:\n"
      ++ String.join (p.jalons.map (fun jalon =>
          "- " ++ jalon.nom ++ " (" ++ toString jalon.date ++ ")\n"))
      ++ "Risques:\n"
      ++ String.join (p.risques.map (fun risque =>
          "- " ++ risque.description ++ " (Probabilité: "
            ++ toString risque.probabilite ++ ", Impact: "
            ++ risque.impact ++ ")\n"))
      ++ "Chemin Critique:\n"
      ++ String.join (p.chemin_critique.map (fun tache =>
          "- " ++ tache.nom ++ " (" ++ toString tache.date_debut ++ " à "
            ++ toString tache.date_fin ++ ")\n"))
  (p, rapport)

/-! ### Concrete fixtures (from the repository's own test suite) -/

/-- The test suite's project manager member. -/
def membreBrahim : Membre :=
  { nom := "Brahim", role := "Chef de projet" }

/-- The test suite's developer member. -/
def membrePape : Membre :=
  { nom := "Pape", role := "Développeur" }

/-- Task A of `test_calculer_chemin_critique`: 2024-01-01 to 2024-01-31
(day 0 to day 30, a 30-day span), no predecessors. -/
def tacheA : Tache :=
  { id := 0, nom := "Analyse des besoins",
    description := "Description de l\x27analyse des besoins",
    date_debut := 0, date_fin := 30, responsable := membreBrahim,
    statut := "Terminée", dependances := [] }

/-- Task B of `test_calculer_chemin_critique`: 2024-02-01 to 2024-06-30
(day 31 to day 181, a 150-day span), predecessor A. -/
def tacheB : Tache :=
  { id := 1, nom := "Développement",
    description := "Description du développement",
    date_debut := 31, date_fin := 181, responsable := membrePape,
    statut := "Non démarrée", dependances := [0] }

/-- The object heap for the A→B chain. -/
def envChaine : Nat → Option Tache := fun n =>
  if n = 0 then some tacheA else if n = 1 then some tacheB else none

/-- The test project after adding tasks A and B. -/
def projChaine : Projet :=
  ((((Projet.init "Nouveau Produit"
      "Développement d\x27un nouveau produit" 0 365).ajouter_tache
        tacheA).1).ajouter_tache tacheB).1

/-! ### Claim theorems -/

/-- C1: the spec (and the repository's own unit test) say the A→B chain
yields critical path `[A, B]` with totals 30 and 180, a source task
getting `total_duration = (end-start).days`. The code instead memoises a
source task as `(0, [task])` and drops a zero-length predecessor (strict
`>` against an initial maximum of 0), so A's total is 0, B's total is
150 with path `[B]`, and the computed critical path is `[B]`, not
`[A, B]` — the code contradicts its own test
`test_calculer_chemin_critique`. -/
theorem c1_source_duration_dropped :
    Projet.calculer_chemin_critique envChaine 10 projChaine
        = some { projChaine with chemin_critique := [tacheB] }
    ∧ (Projet.calculer_chemin_critique envChaine 10 projChaine).map
        (fun p => p.chemin_critique) ≠ some [tacheA, tacheB]
    ∧ find_longest_path envChaine 10 tacheA []
        = some ([(0, (0, [tacheA]))], (0, [tacheA]))
    ∧ (find_longest_path envChaine 10 tacheB []).map (fun r => r.2)
        = some (150, [tacheB]) :=
  ⟨by decide, by decide, by decide, by decide⟩

/-- C2 counterexample: on a project with an empty task list,
`calculer_chemin_critique` does not return an empty critical path — the
traversal succeeds with an empty `all_paths`, and Python's
`max(all_paths, ...)` then raises `ValueError` (modelled as `none`). -/
theorem c2_empty_list_raises :
    (Projet.init "Nouveau Produit" "Développement d\x27un nouveau produit"
        0 365).calculer_chemin_critique (fun _ => none) 10 = none
    ∧ computeAllPaths (fun _ => none) 10
        (Projet.init "Nouveau Produit"
          "Développement d\x27un nouveau produit" 0 365).taches []
        = some []
    ∧ maxByFst [] = none :=
  ⟨by decide, by decide, by decide⟩

/-- C2 (amended): on an empty task list the per-task traversal completes
with an empty `all_paths`, and `calculer_chemin_critique` then fails at
the `max` step (Python `ValueError`), returning no project — the cache
is never overwritten with an empty path. -/
theorem c2_amended_empty_errors (env : Nat → Option Tache) (fuel : Nat)
    (p : Projet) (h : p.taches = []) :
    p.calculer_chemin_critique env fuel = none
    ∧ computeAllPaths env fuel p.taches [] = some [] := by
  constructor
  · simp [Projet.calculer_chemin_critique, h, computeAllPaths, maxByFst]
  · simp [h, computeAllPaths]

/-- C2 witness: the amended statement at a concrete freshly initialised
project. -/
theorem c2_amended_empty_errors_witness :
    (Projet.init "P" "d" 0 1).taches = []
    ∧ ((Projet.init "P" "d" 0 1).calculer_chemin_critique
          (fun _ => none) 5 = none
        ∧ computeAllPaths (fun _ => none) 5
            (Projet.init "P" "d" 0 1).taches [] = some []) :=
  ⟨rfl, c2_amended_empty_errors (fun _ => none) 5 (Projet.init "P" "d" 0 1) rfl⟩

/-- C3: on a project whose version counter is still 1 with no recorded
changes, `enregistrer_changement now "x"` appends exactly one
`Changement` stamped with version 1, leaves the aggregate's counter at
2, and every delivery announces version 2 — one greater than the
version stored on the record. -/
theorem c3_version_off_by_one (p : Projet) (now : Int)
    (ctx : NotificationContext) (h1 : p.version = 1)
    (h2 : p.changements = []) (h3 : p.notification_context = some ctx) :
    (p.enregistrer_changement now "x").1.changements
        = [{ description := "x", version := 1, date := now }]
    ∧ (p.enregistrer_changement now "x").1.version = 2
    ∧ (p.enregistrer_changement now "x").2
        = p.equipe.membres.map
            (fun m => ("Changement enregistré: x (version 2)", m))
    ∧ ∀ c ∈ (p.enregistrer_changement now "x").1.changements,
        c.version + 1 = 2 := by
  simp [Projet.enregistrer_changement, Projet.notifier,
    NotificationContext.notifier, h1, h2, h3]
  intro a _
  decide

/-- A fresh project with one member and an email strategy bound, built
through the aggregate's own operations. -/
def projFrais : Projet :=
  (((Projet.init "P" "d" 0 10).set_notification_strategy
      NotificationStrategy.email).ajouter_membre_equipe membreBrahim).1

/-- C3 witness: the off-by-one statement at the concrete fresh project. -/
theorem c3_version_off_by_one_witness :
    (projFrais.version = 1
    ∧ projFrais.changements = []
    ∧ projFrais.notification_context
        = some (NotificationContext.mk NotificationStrategy.email))
    ∧ ((projFrais.enregistrer_changement 5 "x").1.changements
        = [{ description := "x", version := 1, date := 5 }]
      ∧ (projFrais.enregistrer_changement 5 "x").1.version = 2
      ∧ (projFrais.enregistrer_changement 5 "x").2
          = projFrais.equipe.membres.map
              (fun m => ("Changement enregistré: x (version 2)", m))) :=
  ⟨⟨rfl, rfl, rfl⟩,
    (c3_version_off_by_one projFrais 5
        (NotificationContext.mk NotificationStrategy.email) rfl rfl rfl).1,
    (c3_version_off_by_one projFrais 5
        (NotificationContext.mk NotificationStrategy.email) rfl rfl rfl).2.1,
    (c3_version_off_by_one projFrais 5
        (NotificationContext.mk NotificationStrategy.email) rfl rfl rfl).2.2.1⟩

/-! ### The diamond graph A→B, A→C, B→D, C→D -/

/-- Diamond source task A (id 0), span `dA`, no predecessors. -/
def tacheDiamA (dA : Int) : Tache :=
  { id := 0, nom := "A", description := "", date_debut := 0, date_fin := dA,
    responsable := membreBrahim, statut := "", dependances := [] }

/-- Diamond task B (id 1), span `dB`, predecessor A. -/
def tacheDiamB (dB : Int) : Tache :=
  { id := 1, nom := "B", description := "", date_debut := 0, date_fin := dB,
    responsable := membreBrahim, statut := "", dependances := [0] }

/-- Diamond task C (id 2), span `dC`, predecessor A. -/
def tacheDiamC (dC : Int) : Tache :=
  { id := 2, nom := "C", description := "", date_debut := 0, date_fin := dC,
    responsable := membreBrahim, statut := "", dependances := [0] }

/-- Diamond sink task D (id 3), span `dD`, predecessors B then C. -/
def tacheDiamD (dD : Int) : Tache :=
  { id := 3, nom := "D", description := "", date_debut := 0, date_fin := dD,
    responsable := membreBrahim, statut := "", dependances := [1, 2] }

/-- The object heap of the diamond. -/
def envDiamant (dA dB dC dD : Int) : Nat → Option Tache := fun n =>
  if n = 0 then some (tacheDiamA dA)
  else if n = 1 then some (tacheDiamB dB)
  else if n = 2 then some (tacheDiamC dC)
  else if n = 3 then some (tacheDiamD dD)
  else none

/-- C4: in the diamond (with B's span positive so that B actually beats
the loop's initial maximum of 0), D's path goes through C exactly when
C's computed length strictly exceeds B's (`dB < dC`), and through the
first-encountered predecessor B otherwise — in particular on ties,
because replacement only happens on strict `>`. Moreover the shared
predecessor A is evaluated exactly once: evaluating B from an empty memo
memoises A, and re-reaching A on that memo is a pure memo hit that
leaves the memo unchanged. -/
theorem c4_diamant_memoise (dA dB dC dD : Int) (hB : 0 < dB) :
    ((dC ≤ dB →
      (find_longest_path (envDiamant dA dB dC dD) 10 (tacheDiamD dD) []).map
          (fun r => r.2)
        = some (dB + dD, [tacheDiamB dB, tacheDiamD dD]))
    ∧ (dB < dC →
      (find_longest_path (envDiamant dA dB dC dD) 10 (tacheDiamD dD) []).map
          (fun r => r.2)
        = some (dC + dD, [tacheDiamC dC, tacheDiamD dD])))
    ∧ ∃ mB,
      find_longest_path (envDiamant dA dB dC dD) 10 (tacheDiamB dB) []
          = some (mB, (dB, [tacheDiamB dB]))
      ∧ lookupMemo mB 0 = some (0, [tacheDiamA dA])
      ∧ find_longest_path (envDiamant dA dB dC dD) 10 (tacheDiamA dA) mB
          = some (mB, (0, [tacheDiamA dA])) := by
  refine ⟨⟨fun hBC => ?_, fun hBC => ?_⟩, ?_⟩
  · norm_num [find_longest_path, goDeps, envDiamant, lookupMemo, insertMemo,
      tacheDiamA, tacheDiamB, tacheDiamC, tacheDiamD, hB, hBC,
      not_lt.mpr hBC]
  · norm_num [find_longest_path, goDeps, envDiamant, lookupMemo, insertMemo,
      tacheDiamA, tacheDiamB, tacheDiamC, tacheDiamD, hB, hBC, hB.trans hBC]
  · refine ⟨[(1, (dB, [tacheDiamB dB])), (0, (0, [tacheDiamA dA]))],
      ?_, ?_, ?_⟩ <;>
      norm_num [find_longest_path, goDeps, envDiamant, lookupMemo,
        insertMemo, tacheDiamA, tacheDiamB, tacheDiamC, tacheDiamD]

/-- C4 witness: the diamond at spans A=5, B=7, C=7, D=2 — a tie, won by
the first-encountered predecessor B. -/
theorem c4_diamant_memoise_witness :
    (0 : Int) < 7
    ∧ (7 : Int) ≤ 7
    ∧ (find_longest_path (envDiamant 5 7 7 2) 10 (tacheDiamD 2) []).map
        (fun r => r.2)
      = some (9, [tacheDiamB 7, tacheDiamD 2]) :=
  ⟨by decide, by decide,
    (c4_diamant_memoise 5 7 7 2 (by decide)).1.1 (by decide)⟩

/-! ### Termination on acyclic heaps, divergence on cycles -/

/-- A finite object heap as a lookup keyed by task identity. -/
def envOf (heap : List Tache) : Nat → Option Tache :=
  fun id => heap.find? (fun t => t.id == id)

/-- Acyclicity witnessed by a rank function: every dependency reference
of every task of the heap resolves, to a task of strictly smaller
rank. -/
abbrev HeapAcyclic (heap : List Tache) (rank : Nat → Nat) : Prop :=
  ∀ t ∈ heap, ∀ d ∈ t.dependances,
    (envOf heap d).isSome ∧ rank d < rank t.id

/-- If every dependency of the list resolves to a task on which `flp`
always succeeds, the dependency loop succeeds. -/
theorem goDeps_isSome (env : Nat → Option Tache)
    (flp : Tache → Memo → Option (Memo × (Int × List Tache))) :
    ∀ deps : List Nat,
      (∀ d ∈ deps, ∃ u, env d = some u ∧ ∀ m, (flp u m).isSome) →
      ∀ (memo : Memo) (acc : Int × List Tache),
        (goDeps env flp deps memo acc).isSome := by
  intro deps
  induction deps with
  | nil => intro _ memo acc; simp [goDeps]
  | cons d rest ih =>
    intro h memo acc
    obtain ⟨u, hu, hflp⟩ := h d (List.mem_cons_self d rest)
    have hrest : ∀ d2 ∈ rest, ∃ u2, env d2 = some u2 ∧
        ∀ m, (flp u2 m).isSome :=
      fun d2 hd2 => h d2 (List.mem_cons_of_mem d hd2)
    have hs := hflp memo
    rcases hfu : flp u memo with _ | ⟨memo1, dl, dp⟩
    · rw [hfu] at hs; simp at hs
    · simp only [goDeps, hu, hfu]
      by_cases hlt : acc.1 < dl
      · simpa [hlt] using ih hrest memo1 (dl, dp)
      · simpa [hlt] using ih hrest memo1 acc

/-- On an acyclic heap, `find_longest_path` succeeds from any memo once
the fuel exceeds the task's rank. -/
theorem find_longest_path_isSome (heap : List Tache) (rank : Nat → Nat)
    (hA : HeapAcyclic heap rank) :
    ∀ (fuel : Nat) (t : Tache) (memo : Memo), t ∈ heap →
      rank t.id < fuel →
      (find_longest_path (envOf heap) fuel t memo).isSome := by
  intro fuel
  induction fuel with
  | zero => intro t memo _ hr; exact absurd hr (Nat.not_lt_zero _)
  | succ n ih =>
    intro t memo ht hr
    rcases hm : lookupMemo memo t.id with _ | v
    · by_cases hd : t.dependances.isEmpty
      · simp [find_longest_path, hm, hd]
      · have hdeps : ∀ d ∈ t.dependances, ∃ u, envOf heap d = some u ∧
            ∀ m, (find_longest_path (envOf heap) n u m).isSome := by
          intro d hdmem
          obtain ⟨hsome, hlt⟩ := hA t ht d hdmem
          rcases he : envOf heap d with _ | u
          · rw [he] at hsome; simp at hsome
          · refine ⟨u, rfl, fun m => ?_⟩
            have humem : u ∈ heap := List.mem_of_find?_eq_some he
            have huid : u.id = d := by
              have := List.find?_some he
              simpa using this
            exact ih u m humem (by rw [huid]; omega)
        have hgo := goDeps_isSome (envOf heap)
          (find_longest_path (envOf heap) n) t.dependances hdeps memo (0, [])
        rcases hgo2 : goDeps (envOf heap) (find_longest_path (envOf heap) n)
            t.dependances memo (0, []) with _ | ⟨memo1, ml, mp⟩
        · rw [hgo2] at hgo; simp at hgo
        · simp [find_longest_path, hm, hd, hgo2]
    · simp [find_longest_path, hm]

/-- On an acyclic heap, the whole traversal of a task list succeeds from
any memo once the fuel exceeds every task's rank. -/
theorem computeAllPaths_isSome (heap : List Tache) (rank : Nat → Nat)
    (hA : HeapAcyclic heap rank) (fuel : Nat) :
    ∀ (ts : List Tache) (memo : Memo),
      (∀ t ∈ ts, t ∈ heap ∧ rank t.id < fuel) →
      (computeAllPaths (envOf heap) fuel ts memo).isSome := by
  intro ts
  induction ts with
  | nil => intro memo _; simp [computeAllPaths]
  | cons t rest ih =>
    intro memo h
    obtain ⟨hth, htr⟩ := h t (List.mem_cons_self t rest)
    have h1 := find_longest_path_isSome heap rank hA fuel t memo hth htr
    rcases hf : find_longest_path (envOf heap) fuel t memo with _ | ⟨memo1, v⟩
    · rw [hf] at h1; simp at h1
    · have h2 := ih memo1 (fun u hu => h u (List.mem_cons_of_mem t hu))
      rcases hc : computeAllPaths (envOf heap) fuel rest memo1 with _ | vs
      · rw [hc] at h2; simp at h2
      · simp [computeAllPaths, hf, hc]

/-- The traversal returns one `(length, path)` pair per task. -/
theorem computeAllPaths_length (env : Nat → Option Tache) (fuel : Nat) :
    ∀ (ts : List Tache) (memo : Memo) (l : List (Int × List Tache)),
      computeAllPaths env fuel ts memo = some l → l.length = ts.length := by
  intro ts
  induction ts with
  | nil => intro memo l h; simp [computeAllPaths] at h; simp [h.symm]
  | cons t rest ih =>
    intro memo l h
    rcases hf : find_longest_path env fuel t memo with _ | ⟨memo1, v⟩
    · simp [computeAllPaths, hf] at h
    · simp only [computeAllPaths, hf] at h
      rcases hc : computeAllPaths env fuel rest memo1 with _ | vs
      · simp [hc] at h
      · simp only [hc, Option.some.injEq] at h
        simp [← h, ih memo1 vs hc]

/-- The self-referential task (id 99 depending on id 99). -/
def tacheBoucle : Tache :=
  { id := 99, nom := "Boucle", description := "", date_debut := 0,
    date_fin := 5, responsable := membreBrahim, statut := "",
    dependances := [99] }

/-- On the self-loop, `find_longest_path` exhausts any amount of fuel:
the memo entry is only written after the dependency loop, so the
recursive call sees the same unmemoised task again, forever. -/
theorem find_longest_path_boucle :
    ∀ (fuel : Nat) (memo : Memo), lookupMemo memo 99 = none →
      find_longest_path (envOf [tacheBoucle]) fuel tacheBoucle memo
        = none := by
  intro fuel
  induction fuel with
  | zero => intro memo _; rfl
  | succ n ih =>
    intro memo h
    have hm : lookupMemo memo tacheBoucle.id = none := h
    simp [find_longest_path, hm, goDeps,
      show tacheBoucle.dependances = [99] from rfl,
      show envOf [tacheBoucle] 99 = some tacheBoucle from rfl,
      ih memo h]

/-- C5: on a finite dependency graph with acyclic predecessor
references — witnessed by a rank function that strictly decreases along
every dependency edge — `calculer_chemin_critique` terminates (succeeds
once the fuel exceeds every task's rank, for a nonempty task list);
whereas on a self-referential task the recursion is unbounded: no amount
of fuel completes, as the algorithm performs no cycle detection. -/
theorem c5_terminaison :
    (∀ (heap : List Tache) (rank : Nat → Nat) (p : Projet) (fuel : Nat),
        HeapAcyclic heap rank → p.taches ≠ [] →
        (∀ t ∈ p.taches, t ∈ heap ∧ rank t.id < fuel) →
        (p.calculer_chemin_critique (envOf heap) fuel).isSome)
    ∧ ∀ fuel : Nat,
        find_longest_path (envOf [tacheBoucle]) fuel tacheBoucle []
          = none := by
  constructor
  · intro heap rank p fuel hA hne h
    have h1 := computeAllPaths_isSome heap rank hA fuel p.taches [] h
    rcases hc : computeAllPaths (envOf heap) fuel p.taches [] with _ | l
    · rw [hc] at h1; simp at h1
    · have hlen := computeAllPaths_length (envOf heap) fuel p.taches [] l hc
      rcases l with _ | ⟨x, xs⟩
      · simp at hlen
        exact absurd (List.eq_nil_of_length_eq_zero hlen.symm) hne
      · simp [Projet.calculer_chemin_critique, hc, maxByFst]
  · intro fuel
    exact find_longest_path_boucle fuel [] rfl

/-- C5 witness: the acyclic A→B chain completes at fuel 10; the
self-loop completes at no fuel, here 7. -/
theorem c5_terminaison_witness :
    (projChaine.calculer_chemin_critique (envOf [tacheA, tacheB]) 10).isSome
    ∧ find_longest_path (envOf [tacheBoucle]) 7 tacheBoucle [] = none :=
  ⟨c5_terminaison.1 [tacheA, tacheB] (fun i => i) projChaine 10
      (by decide) (by decide) (by decide),
    c5_terminaison.2 7⟩

/-! ### Notification fan-out and frame properties -/

/-- The test suite's risk. -/
def risqueRetard : Risque :=
  { description := "Retard de livraison", probabilite := 3 / 10,
    impact := "Élevé" }

/-- The test suite's milestone (2024-01-31, day 30). -/
def jalonPhase : Jalon :=
  { nom := "Phase 1 terminée", date := 30 }

/-- The fresh project with two members and an email strategy. -/
def projDeux : Projet :=
  (projFrais.ajouter_membre_equipe membrePape).1

/-- C6: with a strategy bound, every mutating operation triggers one
`envoyer_message` invocation per member of the post-mutation member
list, in member-list order — for the operations that do not touch the
registry that list is the current one, and for
`ajouter_membre_equipe` it is the current list extended with the new
member. -/
theorem c6_diffusion (p : Projet) (ctx : NotificationContext)
    (h : p.notification_context = some ctx) :
    (∀ t, ((p.ajouter_tache t).2).map Prod.snd = p.equipe.membres)
    ∧ (∀ m, ((p.ajouter_membre_equipe m).2).map Prod.snd
        = p.equipe.membres ++ [m])
    ∧ (∀ b, ((p.definir_budget b).2).map Prod.snd = p.equipe.membres)
    ∧ (∀ r, ((p.ajouter_risque r).2).map Prod.snd = p.equipe.membres)
    ∧ (∀ j, ((p.ajouter_jalon j).2).map Prod.snd = p.equipe.membres)
    ∧ (∀ (now : Int) (d : String),
        ((p.enregistrer_changement now d).2).map Prod.snd
          = p.equipe.membres) := by
  refine ⟨fun t => ?_, fun m => ?_, fun b => ?_, fun r => ?_,
    fun j => ?_, fun now d => ?_⟩ <;>
    simp [Projet.ajouter_tache, Projet.ajouter_membre_equipe,
      Projet.definir_budget, Projet.ajouter_risque, Projet.ajouter_jalon,
      Projet.enregistrer_changement, Projet.notifier,
      NotificationContext.notifier, Equipe.ajouter_membre, h]

/-- C6 witness: the six operations on the concrete two-member project. -/
theorem c6_diffusion_witness :
    projDeux.notification_context
        = some (NotificationContext.mk NotificationStrategy.email)
    ∧ ((projDeux.ajouter_tache tacheA).2).map Prod.snd
        = projDeux.equipe.membres
    ∧ ((projDeux.ajouter_membre_equipe membreBrahim).2).map Prod.snd
        = projDeux.equipe.membres ++ [membreBrahim]
    ∧ ((projDeux.definir_budget 50000).2).map Prod.snd
        = projDeux.equipe.membres
    ∧ ((projDeux.ajouter_risque risqueRetard).2).map Prod.snd
        = projDeux.equipe.membres
    ∧ ((projDeux.ajouter_jalon jalonPhase).2).map Prod.snd
        = projDeux.equipe.membres
    ∧ ((projDeux.enregistrer_changement 5 "x").2).map Prod.snd
        = projDeux.equipe.membres :=
  ⟨rfl,
    (c6_diffusion projDeux _ rfl).1 tacheA,
    (c6_diffusion projDeux _ rfl).2.1 membreBrahim,
    (c6_diffusion projDeux _ rfl).2.2.1 50000,
    (c6_diffusion projDeux _ rfl).2.2.2.1 risqueRetard,
    (c6_diffusion projDeux _ rfl).2.2.2.2.1 jalonPhase,
    (c6_diffusion projDeux _ rfl).2.2.2.2.2 5 "x"⟩

/-- C7: before any strategy is bound, every mutating operation still
applies its state change exactly, raises nothing, and delivers to
nobody. -/
theorem c7_notification_abandonnee (p : Projet)
    (h : p.notification_context = none) :
    (∀ t, p.ajouter_tache t = ({ p with taches := p.taches ++ [t] }, []))
    ∧ (∀ m, p.ajouter_membre_equipe m
        = ({ p with equipe := { membres := p.equipe.membres ++ [m] } }, []))
    ∧ (∀ b, p.definir_budget b = ({ p with budget := b }, []))
    ∧ (∀ r, p.ajouter_risque r
        = ({ p with risques := p.risques ++ [r] }, []))
    ∧ (∀ j, p.ajouter_jalon j = ({ p with jalons := p.jalons ++ [j] }, []))
    ∧ (∀ (now : Int) (d : String), p.enregistrer_changement now d
        = ({ p with
              changements := p.changements
                ++ [{ description := d, version := p.version, date := now }],
              version := p.version + 1 }, [])) := by
  refine ⟨fun t => ?_, fun m => ?_, fun b => ?_, fun r => ?_,
    fun j => ?_, fun now d => ?_⟩ <;>
    simp [Projet.ajouter_tache, Projet.ajouter_membre_equipe,
      Projet.definir_budget, Projet.ajouter_risque, Projet.ajouter_jalon,
      Projet.enregistrer_changement, Projet.notifier,
      Equipe.ajouter_membre, h]

/-- A freshly initialised project (no strategy ever bound). -/
def projVierge : Projet :=
  Projet.init "Projet" "d" 0 9

/-- C7 witness: three of the operations on the virgin project. -/
theorem c7_notification_abandonnee_witness :
    projVierge.notification_context = none
    ∧ projVierge.ajouter_tache tacheA
        = ({ projVierge with taches := projVierge.taches ++ [tacheA] }, [])
    ∧ projVierge.ajouter_membre_equipe membreBrahim
        = ({ projVierge with
              equipe :=
                { membres := projVierge.equipe.membres ++ [membreBrahim] } },
            [])
    ∧ projVierge.enregistrer_changement 5 "x"
        = ({ projVierge with
              changements := projVierge.changements
                ++ [{ description := "x", version := projVierge.version,
                      date := 5 }],
              version := projVierge.version + 1 }, []) :=
  ⟨rfl,
    (c7_notification_abandonnee projVierge rfl).1 tacheA,
    (c7_notification_abandonnee projVierge rfl).2.1 membreBrahim,
    (c7_notification_abandonnee projVierge rfl).2.2.2.2.2 5 "x"⟩

/-- C8: `ajouter_membre_equipe m` makes `m` a member, grows the registry
by exactly one, and — whenever a strategy is bound — `m` itself is among
the recipients of the operation's own notification, because the
notification targets the post-mutation member list. -/
theorem c8_membre_present (p : Projet) (m : Membre) :
    m ∈ (p.ajouter_membre_equipe m).1.equipe.membres
    ∧ (p.ajouter_membre_equipe m).1.equipe.membres.length
        = p.equipe.membres.length + 1
    ∧ ∀ ctx, p.notification_context = some ctx →
        m ∈ ((p.ajouter_membre_equipe m).2).map Prod.snd := by
  refine ⟨?_, ?_, fun ctx h => ?_⟩
  · simp [Projet.ajouter_membre_equipe, Equipe.ajouter_membre]
  · simp [Projet.ajouter_membre_equipe, Equipe.ajouter_membre]
  · simp [Projet.ajouter_membre_equipe, Equipe.ajouter_membre,
      Projet.notifier, NotificationContext.notifier, h]

/-- C8 witness: adding Pape to the one-member project with a bound
strategy. -/
theorem c8_membre_present_witness :
    projFrais.notification_context
        = some (NotificationContext.mk NotificationStrategy.email)
    ∧ membrePape ∈ (projFrais.ajouter_membre_equipe membrePape).1.equipe.membres
    ∧ (projFrais.ajouter_membre_equipe membrePape).1.equipe.membres.length
        = projFrais.equipe.membres.length + 1
    ∧ membrePape ∈ ((projFrais.ajouter_membre_equipe membrePape).2).map
        Prod.snd :=
  ⟨rfl,
    (c8_membre_present projFrais membrePape).1,
    (c8_membre_present projFrais membrePape).2.1,
    (c8_membre_present projFrais membrePape).2.2 _ rfl⟩

/-- C9: `generer_rapport` reads the aggregate without mutating it, so a
second call with no intervening mutation returns the identical text. -/
theorem c9_rapport_deterministe (p : Projet) :
    (p.generer_rapport).1 = p
    ∧ ((p.generer_rapport).1.generer_rapport).2 = (p.generer_rapport).2 :=
  ⟨rfl, rfl⟩

/-- C10: only `enregistrer_changement` touches the version counter, and
it increments it by exactly one; every other operation — including a
successful or failing critical-path computation and report
generation — leaves it unchanged. -/
theorem c10_version_cadre (p : Projet) :
    (∀ (now : Int) (d : String),
        (p.enregistrer_changement now d).1.version = p.version + 1)
    ∧ (∀ t, (p.ajouter_tache t).1.version = p.version)
    ∧ (∀ m, (p.ajouter_membre_equipe m).1.version = p.version)
    ∧ (∀ b, (p.definir_budget b).1.version = p.version)
    ∧ (∀ r, (p.ajouter_risque r).1.version = p.version)
    ∧ (∀ j, (p.ajouter_jalon j).1.version = p.version)
    ∧ (∀ s, (p.set_notification_strategy s).version = p.version)
    ∧ (∀ (env : Nat → Option Tache) (fuel : Nat) (q : Projet),
        p.calculer_chemin_critique env fuel = some q →
        q.version = p.version)
    ∧ (p.generer_rapport).1.version = p.version := by
  refine ⟨fun now d => rfl, fun t => rfl, fun m => rfl, fun b => rfl,
    fun r => rfl, fun j => rfl, fun s => rfl,
    fun env fuel q h => ?_, rfl⟩
  rcases hc : computeAllPaths env fuel p.taches [] with _ | l
  · simp [Projet.calculer_chemin_critique, hc] at h
  · rcases hm : maxByFst l with _ | best
    · simp [Projet.calculer_chemin_critique, hc, hm] at h
    · simp only [Projet.calculer_chemin_critique, hc, hm,
        Option.some.injEq] at h
      rw [← h]

/-- C10 witness: the version counter across concrete operations on the
chain project, including a successful critical-path computation. -/
theorem c10_version_cadre_witness :
    (projChaine.enregistrer_changement 5 "x").1.version
        = projChaine.version + 1
    ∧ (projChaine.ajouter_tache tacheA).1.version = projChaine.version
    ∧ projChaine.calculer_chemin_critique envChaine 10
        = some { projChaine with chemin_critique := [tacheB] }
    ∧ ({ projChaine with chemin_critique := [tacheB] } : Projet).version
        = projChaine.version :=
  ⟨(c10_version_cadre projChaine).1 5 "x",
    (c10_version_cadre projChaine).2.1 tacheA,
    by decide,
    (c10_version_cadre projChaine).2.2.2.2.2.2.2.1 envChaine 10
      { projChaine with chemin_critique := [tacheB] } (by decide)⟩

end MQPL
